import Mathlib

/-!
Verification of the request-metadata and video-call-provider excerpt of the
Zulip repository.  The excerpt ships `zerver/lib/request.py` (the RequestNotes
dataclass and the `populate_post_data` body normalizer) together with
`zerver/tests/test_create_video_call.py`.  The provider-client module
(`zerver/views/video_calls.py`) and the notes store (`zerver/lib/notes.py`)
are not part of the excerpt, so those operations are modelled from the
specification, with the shipped tests pinning the observable behaviour
wherever they exercise it.
-/

/-- The classified provider outcomes of the error-handling design. -/
inductive ProviderError where
  | NotConfigured
  | InvalidCredentials
  | InvalidOrExpiredToken
  | UnknownRemoteUser
  | UpstreamUnavailable
  | UpstreamRejected
  | SignatureInvalid
  | MalformedUpstreamResponse
  deriving DecidableEq, Repr

/-- HTTP success classification used by all provider clients. -/
def is2xx (s : Nat) : Bool := decide (200 ≤ s ∧ s < 300)

/-! ## Zoom provider client

`zerver/views/video_calls.py` is not in the excerpt; the OAuth credential
cache and the meeting-creation call are modelled from the specification
(sections 4.3 and 8), with the error surface pinned by the shipped tests
`test_create_zoom_credential_error`, `test_create_zoom_refresh_error`,
`test_create_zoom_request_error`, `test_zoom_unknown_email_error` and the
payload assertions of `test_create_zoom_video_and_audio_links`.
-/

/-- Modelled from the spec: the cached Zoom OAuth credential, an access
token string plus the computed expiry timestamp (`now + expires_in`). -/
structure ZoomOAuthCredential where
  access_token : String
  expires_at : Int
  deriving DecidableEq, Repr

/-- The two token-exchange situations: the initial fetch performed by the
OAuth completion endpoint (and by the server-to-server cache on a cold
start), and the refresh of an already-stored expired token. -/
inductive ZoomExchangeContext where
  | initialFetch
  | refresh
  deriving DecidableEq, Repr

/-- The upstream answer to a token-exchange call, already JSON-decoded:
the HTTP status and, when the payload is well-formed, the access token
with its `expires_in` lifetime.  `payload = none` models a malformed
payload (missing `access_token`). -/
structure ZoomTokenResponse where
  status : Nat
  payload : Option (String × Int)
  deriving DecidableEq, Repr

/-- Error raised when a token-exchange call fails, per exchange context.
The initial fetch surfaces "Invalid Zoom credentials"
(`test_create_zoom_credential_error`, `test_zoom_invalid_settings`), while
a failing refresh surfaces "Invalid Zoom access token"
(`test_create_zoom_refresh_error`). -/
def zoom_exchange_error (ctx : ZoomExchangeContext) : ProviderError :=
  match ctx with
  | .initialFetch => .InvalidCredentials
  | .refresh => .InvalidOrExpiredToken

/-- Modelled from the spec: one token-exchange call against the Zoom OAuth
endpoint.  A 2xx response with a well-formed payload stores the token with
computed expiry `now + expires_in`; a non-2xx response or malformed payload
fails with the context-dependent credential error. -/
def zoom_token_exchange (ctx : ZoomExchangeContext) (now : Int)
    (resp : ZoomTokenResponse) : Except ProviderError ZoomOAuthCredential :=
  if is2xx resp.status then
    match resp.payload with
    | some tok => .ok ⟨tok.1, now + tok.2⟩
    | none => .error (zoom_exchange_error ctx)
  else
    .error (zoom_exchange_error ctx)

/-- Result of `ensure_token`: the credential outcome plus how many
token-exchange calls were issued. -/
structure ZoomEnsureOutcome where
  result : Except ProviderError ZoomOAuthCredential
  exchangeCalls : Nat
  deriving Repr

/-- Modelled from the spec: `ensure_token()`.  If a cached token exists and
has not passed its expiry timestamp it is returned with no exchange call;
otherwise a token-exchange call is performed (an initial fetch when no
token is cached, a refresh when the cached token has expired). -/
def ensure_token (cred : Option ZoomOAuthCredential) (now : Int)
    (resp : ZoomTokenResponse) : ZoomEnsureOutcome :=
  match cred with
  | some c =>
    if now < c.expires_at then ⟨.ok c, 0⟩
    else ⟨zoom_token_exchange .refresh now resp, 1⟩
  | none => ⟨zoom_token_exchange .initialFetch now resp, 1⟩

/-- The fixed human-readable Zoom error messages asserted by the tests. -/
def zoom_error_message : ProviderError → String
  | .NotConfigured => "Zoom credentials have not been configured"
  | .InvalidCredentials => "Invalid Zoom credentials"
  | .InvalidOrExpiredToken => "Invalid Zoom access token"
  | .UnknownRemoteUser => "Unknown Zoom user email"
  | .UpstreamRejected => "Failed to create Zoom call"
  | _ => ""

/-- The upstream answer to the Zoom meeting-creation call, already
JSON-decoded: HTTP status, the provider-specific error `code` when the body
carries one, and the `join_url` field of a successful body. -/
structure ZoomCreateResponse where
  status : Nat
  code : Option Int
  join_url : String
  deriving DecidableEq, Repr

/-- Modelled from the spec: classification of the Zoom create-meeting
response.  A 401 signals the invalid-access-token error; a 2xx returns the
provider-issued join URL verbatim; any other non-2xx is classified by the
provider error code, 1001 meaning an unknown end-user email and everything
else the generic rejection. -/
def classify_zoom_create (resp : ZoomCreateResponse) :
    Except ProviderError String :=
  if resp.status = 401 then .error .InvalidOrExpiredToken
  else if is2xx resp.status then .ok resp.join_url
  else if resp.code = some 1001 then .error .UnknownRemoteUser
  else .error .UpstreamRejected

/-- The settings payload of the outbound Zoom meeting-creation request. -/
structure ZoomMeetingPayload where
  host_video : Bool
  participant_video : Bool
  default_password : Bool
  deriving DecidableEq, Repr

/-- Modelled from the spec: the meeting-creation payload built from the
`is_video_call` parameter, as asserted byte-for-byte by
`test_create_zoom_video_and_audio_links` and `test_zoom_create_audio_call`. -/
def zoom_meeting_payload (is_video_call : Bool) : ZoomMeetingPayload :=
  ⟨is_video_call, is_video_call, true⟩

/-- The outbound Zoom meeting-creation request: bearer token plus payload. -/
structure ZoomCreateRequest where
  bearer : String
  payload : ZoomMeetingPayload
  deriving DecidableEq, Repr

/-- Modelled from the spec: `create_meeting(user, isVideo)`.  Calls
`ensure_token`; on failure no create request is issued, on success the
create request is issued with the ensured bearer token and the settings
payload, and its response is classified. -/
def zoom_create_meeting (cred : Option ZoomOAuthCredential) (now : Int)
    (tokenResp : ZoomTokenResponse) (createResp : ZoomCreateResponse)
    (is_video_call : Bool) :
    Except ProviderError String × Option ZoomCreateRequest :=
  match (ensure_token cred now tokenResp).result with
  | .error e => (.error e, none)
  | .ok c =>
    (classify_zoom_create createResp,
      some ⟨c.access_token, zoom_meeting_payload is_video_call⟩)

/-- Claim C1: whenever `create_meeting` runs with a cached token whose
remaining lifetime is zero or negative, a token-exchange call is performed
before the token is used (the outcome is exactly the exchange result);
whenever the cached token has positive remaining lifetime, no exchange call
is performed and the cached token is returned as-is. -/
theorem claim_C1_zoom_token_cache (c : ZoomOAuthCredential) (now : Int)
    (resp : ZoomTokenResponse) :
    (c.expires_at - now ≤ 0 →
      (ensure_token (some c) now resp).exchangeCalls = 1 ∧
      (ensure_token (some c) now resp).result =
        zoom_token_exchange .refresh now resp) ∧
    (0 < c.expires_at - now →
      (ensure_token (some c) now resp).exchangeCalls = 0 ∧
      (ensure_token (some c) now resp).result = .ok c) := by
  refine ⟨fun h => ?_, fun h => ?_⟩
  · have hn : ¬ now < c.expires_at := by omega
    simp [ensure_token, hn]
  · have hn : now < c.expires_at := by omega
    simp [ensure_token, hn]

theorem claim_C1_zoom_token_cache_witness :
    (ensure_token (some ⟨"old", 40⟩) 100 ⟨200, some ("new", 60)⟩).exchangeCalls = 1 ∧
    (ensure_token (some ⟨"old", 400⟩) 100 ⟨200, some ("new", 60)⟩).exchangeCalls = 0 :=
  ⟨((claim_C1_zoom_token_cache ⟨"old", 40⟩ 100 ⟨200, some ("new", 60)⟩).1
      (by decide)).1,
    ((claim_C1_zoom_token_cache ⟨"old", 400⟩ 100 ⟨200, some ("new", 60)⟩).2
      (by decide)).1⟩

/-- Claim C2, counterexample: the claim says every failing token-exchange
call (initial fetch or refresh) signals the "invalid credentials" error,
but a failing refresh signals the "Invalid Zoom access token" error
(`test_create_zoom_refresh_error`, a distinct error kind and message from
"Invalid Zoom credentials"). -/
theorem claim_C2_counterexample :
    zoom_token_exchange .refresh 0 ⟨400, none⟩ =
      .error .InvalidOrExpiredToken ∧
    ProviderError.InvalidOrExpiredToken ≠ ProviderError.InvalidCredentials ∧
    zoom_error_message .InvalidOrExpiredToken = "Invalid Zoom access token" ∧
    zoom_error_message .InvalidCredentials = "Invalid Zoom credentials" :=
  ⟨rfl, by decide, rfl, rfl⟩

/-- Claim C2, amended: for every token-exchange call of the Zoom client, a
non-2xx response or malformed payload signals an error to the caller: the
"invalid credentials" error for the initial fetch, and the "invalid access
token" error for a refresh. -/
theorem claim_C2_token_exchange_errors (now : Int) (resp : ZoomTokenResponse)
    (h : is2xx resp.status = false ∨ resp.payload = none) :
    zoom_token_exchange .initialFetch now resp = .error .InvalidCredentials ∧
    zoom_token_exchange .refresh now resp = .error .InvalidOrExpiredToken := by
  rcases h with h | h
  · simp [zoom_token_exchange, h, zoom_exchange_error]
  · cases hs : is2xx resp.status <;>
      simp [zoom_token_exchange, hs, h, zoom_exchange_error]

theorem claim_C2_token_exchange_errors_witness :
    zoom_token_exchange .initialFetch 0 ⟨400, none⟩ =
      .error .InvalidCredentials ∧
    zoom_token_exchange .refresh 0 ⟨400, none⟩ =
      .error .InvalidOrExpiredToken :=
  claim_C2_token_exchange_errors 0 ⟨400, none⟩ (Or.inl (by decide))

/-- Claim C5: classification of a non-2xx Zoom create-meeting response:
HTTP 401 maps to the invalid-access-token error; otherwise provider error
code 1001 maps to the unknown-user error; any other non-2xx maps to the
generic rejection; each with its fixed message. -/
theorem claim_C5_zoom_create_error_mapping (resp : ZoomCreateResponse) :
    (resp.status = 401 →
      classify_zoom_create resp = .error .InvalidOrExpiredToken) ∧
    (is2xx resp.status = false → resp.status ≠ 401 → resp.code = some 1001 →
      classify_zoom_create resp = .error .UnknownRemoteUser) ∧
    (is2xx resp.status = false → resp.status ≠ 401 → resp.code ≠ some 1001 →
      classify_zoom_create resp = .error .UpstreamRejected) ∧
    zoom_error_message .InvalidOrExpiredToken = "Invalid Zoom access token" ∧
    zoom_error_message .UnknownRemoteUser = "Unknown Zoom user email" ∧
    zoom_error_message .UpstreamRejected = "Failed to create Zoom call" := by
  refine ⟨fun h => ?_, fun h1 h2 h3 => ?_, fun h1 h2 h3 => ?_, rfl, rfl, rfl⟩
  · simp [classify_zoom_create, h]
  · simp [classify_zoom_create, h1, h2, h3]
  · simp [classify_zoom_create, h1, h2, h3]

theorem claim_C5_zoom_create_error_mapping_witness :
    classify_zoom_create ⟨400, some 1001, ""⟩ = .error .UnknownRemoteUser :=
  (claim_C5_zoom_create_error_mapping ⟨400, some 1001, ""⟩).2.1
    (by decide) (by decide) (by decide)

/-- Claim C6: every outbound Zoom create-meeting request carries
`host_video` and `participant_video` both equal to the boolean value of
`is_video_call`, and `default_password` equal to true. -/
theorem claim_C6_zoom_payload_flags (cred : Option ZoomOAuthCredential)
    (now : Int) (tokenResp : ZoomTokenResponse)
    (createResp : ZoomCreateResponse) (is_video_call : Bool)
    (req : ZoomCreateRequest)
    (h : (zoom_create_meeting cred now tokenResp createResp
        is_video_call).2 = some req) :
    req.payload.host_video = is_video_call ∧
    req.payload.participant_video = is_video_call ∧
    req.payload.default_password = true := by
  unfold zoom_create_meeting at h
  cases hr : (ensure_token cred now tokenResp).result with
  | error e => rw [hr] at h; simp at h
  | ok c =>
    rw [hr] at h
    simp at h
    subst h
    exact ⟨rfl, rfl, rfl⟩

theorem claim_C6_zoom_payload_flags_witness :
    (⟨"tok", zoom_meeting_payload true⟩ : ZoomCreateRequest).payload.host_video = true ∧
    (⟨"tok", zoom_meeting_payload true⟩ : ZoomCreateRequest).payload.participant_video = true ∧
    (⟨"tok", zoom_meeting_payload true⟩ : ZoomCreateRequest).payload.default_password = true :=
  claim_C6_zoom_payload_flags (some ⟨"tok", 100⟩) 0 ⟨200, none⟩
    ⟨200, none, "example.com"⟩ true ⟨"tok", zoom_meeting_payload true⟩ rfl

/-! ## Request notes store

Translated from `zerver/lib/request.py` (`RequestNotes`).  The collaborator
types (`zerver.models.Client`, `Realm`, `rate_limiter.RateLimitResult`,
`HttpResponse`, `zilencer.RemoteZulipServer`) are external to the excerpt
and stand in as minimal concrete records; only their presence or absence in
a `RequestNotes` instance matters here.  The base store
(`zerver/lib/notes.py`) is not in the excerpt and `get_or_create` is
modelled from the spec.
-/

/-- Stand-in for the external `zerver.models.Client` record. -/
structure Client where
  id : Nat
  name : String
  deriving DecidableEq, Repr

/-- Stand-in for the external `zerver.models.Realm` record. -/
structure Realm where
  id : Nat
  deriving DecidableEq, Repr

/-- Stand-in for the external `rate_limiter.RateLimitResult` record. -/
structure RateLimitResult where
  entity_key : String
  secs_to_freedom : Int
  over_limit : Bool
  deriving DecidableEq, Repr

/-- Stand-in for the external `django.http.HttpResponse` held by
`saved_response`. -/
structure HttpResponseData where
  status_code : Nat
  content : String
  deriving DecidableEq, Repr

/-- Stand-in for the external `zilencer.models.RemoteZulipServer` record. -/
structure RemoteZulipServer where
  uuid : String
  deriving DecidableEq, Repr

/-- Translated from `zerver/lib/request.py` lines 25-56: the per-request
metadata record.  Python `X | None` fields become `Option`, the
`MutableMapping[str, Any]` log data becomes an optional association list,
the `list`/`set` containers become lists, and the two `bool` fields keep
their `False` defaults. -/
structure RequestNotes where
  client : Option Client
  client_name : Option String
  client_version : Option String
  log_data : Option (List (String × String))
  requester_for_logs : Option String
  realm : Option Realm
  has_fetched_realm : Bool
  set_language : Option String
  ratelimits_applied : List RateLimitResult
  query : Option String
  error_format : Option String
  saved_response : Option HttpResponseData
  tornado_handler_id : Option Int
  processed_parameters : List String
  remote_server : Option RemoteZulipServer
  is_webhook_view : Bool
  deriving DecidableEq, Repr

/-- Translated from `RequestNotes.init_notes` (lines 58-61): a fresh record
with every dataclass default. -/
def init_notes : RequestNotes :=
  ⟨none, none, none, none, none, none, false, none, [], none, none, none,
    none, [], none, false⟩

/-- Association lookup over the notes store, keyed by request identity. -/
def lookupNotes : List (Nat × RequestNotes) → Nat → Option RequestNotes
  | [], _ => none
  | kv :: rest, rid => if kv.1 = rid then some kv.2 else lookupNotes rest rid

/-- Modelled from the spec: `BaseNotes.get_or_create` (the base class in
`zerver/lib/notes.py` is not in the excerpt).  Returns the notes object
already associated with the request, or associates and returns a fresh
`init_notes` on first access. -/
def get_or_create (store : List (Nat × RequestNotes)) (rid : Nat) :
    RequestNotes × List (Nat × RequestNotes) :=
  match lookupNotes store rid with
  | some n => (n, store)
  | none => (init_notes, (rid, init_notes) :: store)

/-- The fields of the `RequestNotes` dataclass, in source order. -/
inductive RequestNotesField where
  | client
  | client_name
  | client_version
  | log_data
  | requester_for_logs
  | realm
  | has_fetched_realm
  | set_language
  | ratelimits_applied
  | query
  | error_format
  | saved_response
  | tornado_handler_id
  | processed_parameters
  | remote_server
  | is_webhook_view
  deriving DecidableEq, Repr

/-- The three shapes a `RequestNotes` field can have. -/
inductive RequestFieldKind where
  | optionalField
  | containerField
  | booleanField
  deriving DecidableEq, Repr

/-- The kind of each field as annotated in the source dataclass:
`has_fetched_realm : bool = False` (line 47) and
`is_webhook_view : bool = False` (line 56) are plain booleans,
`ratelimits_applied` (line 49) and `processed_parameters` (line 54) are the
structured containers, and every other field is `X | None = None`. -/
def requestNotesFieldKind : RequestNotesField → RequestFieldKind
  | .has_fetched_realm => .booleanField
  | .is_webhook_view => .booleanField
  | .ratelimits_applied => .containerField
  | .processed_parameters => .containerField
  | _ => .optionalField

/-- Whether an optional field of the given notes record is absent; plain
booleans and containers are never "none". -/
def requestNotesFieldIsNone (n : RequestNotes) : RequestNotesField → Bool
  | .client => n.client.isNone
  | .client_name => n.client_name.isNone
  | .client_version => n.client_version.isNone
  | .log_data => n.log_data.isNone
  | .requester_for_logs => n.requester_for_logs.isNone
  | .realm => n.realm.isNone
  | .has_fetched_realm => false
  | .set_language => n.set_language.isNone
  | .ratelimits_applied => false
  | .query => n.query.isNone
  | .error_format => n.error_format.isNone
  | .saved_response => n.saved_response.isNone
  | .tornado_handler_id => n.tornado_handler_id.isNone
  | .processed_parameters => false
  | .remote_server => n.remote_server.isNone
  | .is_webhook_view => false

/-- Claim C7, counterexample: the claim says every `RequestNotes` field is
optional/nullable except the rate-limit-results list and the
processed-parameters set; but `has_fetched_realm` is a plain boolean field
(`bool = False`, source line 47), neither optional nor a container, and its
initial value is `false`, not null. -/
theorem claim_C7_counterexample :
    ¬ (∀ f : RequestNotesField,
        requestNotesFieldKind f = .optionalField ∨
        requestNotesFieldKind f = .containerField) ∧
    requestNotesFieldKind .has_fetched_realm = .booleanField ∧
    init_notes.has_fetched_realm = false := by
  refine ⟨fun h => ?_, rfl, rfl⟩
  rcases h .has_fetched_realm with h | h <;> simp [requestNotesFieldKind] at h

/-- Claim C7, amended: on first access for a request, `get_or_create`
returns a `RequestNotes` instance whose fields are all default/empty: every
optional/nullable field is null, the structured containers (the
rate-limit-results list and the processed-parameters set) start empty, and
the two plain boolean flags (`has_fetched_realm`, `is_webhook_view`) start
false. -/
theorem claim_C7_request_notes_defaults (store : List (Nat × RequestNotes))
    (rid : Nat) (h : lookupNotes store rid = none) :
    (get_or_create store rid).1 = init_notes ∧
    (∀ f, requestNotesFieldKind f = .optionalField →
      requestNotesFieldIsNone init_notes f = true) ∧
    init_notes.ratelimits_applied = [] ∧
    init_notes.processed_parameters = [] ∧
    init_notes.has_fetched_realm = false ∧
    init_notes.is_webhook_view = false := by
  refine ⟨?_, fun f hf => ?_, rfl, rfl, rfl, rfl⟩
  · simp [get_or_create, h]
  · cases f <;> first
      | rfl
      | simp [requestNotesFieldKind] at hf

theorem claim_C7_request_notes_defaults_witness :
    (get_or_create [] 7).1 = init_notes :=
  (claim_C7_request_notes_defaults [] 7 rfl).1

/-! ## Form/body normalizer

Translated from `zerver/lib/request.py` lines 108-131
(`populate_post_data`).  The two body parsers it delegates to
(`django.http.multipartparser.MultiPartParser` and the query-string parser
inside `django.http.QueryDict`) are external collaborators; they are
modelled below as simple concrete parsers over the raw byte body, which is
all the branching logic of `populate_post_data` observes.
-/

/-- Split a byte list at the first occurrence of `sep`, returning the
bytes before it and the bytes after it. -/
def splitFirst (sep : Nat) : List Nat → List Nat × List Nat
  | [] => ([], [])
  | a :: rest =>
    if a = sep then ([], rest)
    else
      let p := splitFirst sep rest
      (a :: p.1, p.2)

/-- Decode a raw byte list to text.  Models charset decoding with the
request's declared encoding; the model maps each byte to its code point. -/
def decodeText (encoding : String) (body : List Nat) : String :=
  if encoding = "" then "" else String.mk (body.map Char.ofNat)

/-- Fueled splitting of a byte body into `name=value` pairs separated by
`38` (the ampersand), each decoded with the declared encoding. -/
def formPairsAux (encoding : String) : Nat → List Nat → List (String × String)
  | 0, _ => []
  | fuel + 1, l =>
    if l = [] then []
    else
      let field := splitFirst 38 l
      let nv := splitFirst 61 field.1
      (decodeText encoding nv.1, decodeText encoding nv.2) ::
        formPairsAux encoding fuel field.2

/-- Model of Django's url-encoded form parsing: the byte body split into
decoded `name=value` pairs. -/
def urlencoded_parse (body : List Nat) (encoding : String) :
    List (String × String) :=
  formPairsAux encoding body.length body

/-- Model of `django.http.QueryDict`: the parsed field map together with
the `_mutable` flag. -/
structure QueryDict where
  pairs : List (String × String)
  mutableFlag : Bool
  deriving DecidableEq, Repr

/-- Model of the `QueryDict(raw_body, encoding=...)` constructor: parses
the byte body with the declared encoding; Django builds the instance with
`mutable=False`, so the resulting field map is immutable. -/
def QueryDict.ofBody (body : List Nat) (encoding : String) : QueryDict :=
  ⟨urlencoded_parse body encoding, false⟩

/-- Model of `django.http.multipartparser.MultiPartParser.parse`: a
field map (a mutable `QueryDict`, per the source comment on lines 117-118)
plus a file map.  The model parses fields like the url-encoded parser and
carries no files. -/
def multipart_parse (body : List Nat) (encoding : String) :
    QueryDict × List (String × String) :=
  (⟨urlencoded_parse body encoding, true⟩, [])

/-- Model of `dict.update` on `request.FILES`: entries of `new` replace
same-named entries of `old` and are appended otherwise. -/
def updateFiles (old new : List (String × String)) :
    List (String × String) :=
  old.filter (fun kv => (new.lookup kv.1).isNone) ++ new

/-- Model of `django.http.HttpRequest`: the fields `populate_post_data`
reads and writes. -/
structure HttpRequest where
  content_type : String
  body : List Nat
  encoding : String
  POST : QueryDict
  FILES : List (String × String)
  deriving DecidableEq, Repr

/-- Translated from `populate_post_data` (lines 108-131): a
`multipart/form-data` body is parsed into a field map plus file map, the
field map's `_mutable` flag is cleared before it is installed as
`request.POST`, and the files are merged into `request.FILES`; an
`application/x-www-form-urlencoded` body is parsed into a fresh
`QueryDict` with the request's declared encoding; any other content type
leaves the request untouched. -/
def populate_post_data (request : HttpRequest) : HttpRequest :=
  if request.content_type = "multipart/form-data" then
    let parsed := multipart_parse request.body request.encoding
    { request with
        POST := ⟨parsed.1.pairs, false⟩,
        FILES := updateFiles request.FILES parsed.2 }
  else if request.content_type = "application/x-www-form-urlencoded" then
    { request with POST := QueryDict.ofBody request.body request.encoding }
  else
    request

/-- Claim C8: the normalizer's behaviour by content type: a multipart body
is parsed into a field map plus file map and the installed field map is
frozen; a url-encoded body is parsed with the request's declared encoding
into a field map; any other content type leaves the request untouched. -/
theorem claim_C8_populate_post_data (r : HttpRequest) :
    (r.content_type = "multipart/form-data" →
      (populate_post_data r).POST.pairs =
        (multipart_parse r.body r.encoding).1.pairs ∧
      (populate_post_data r).POST.mutableFlag = false ∧
      (populate_post_data r).FILES =
        updateFiles r.FILES (multipart_parse r.body r.encoding).2) ∧
    (r.content_type = "application/x-www-form-urlencoded" →
      (populate_post_data r).POST = QueryDict.ofBody r.body r.encoding) ∧
    (r.content_type ≠ "multipart/form-data" →
      r.content_type ≠ "application/x-www-form-urlencoded" →
      populate_post_data r = r) := by
  refine ⟨fun h => ?_, fun h => ?_, fun h1 h2 => ?_⟩
  · simp [populate_post_data, h]
  · have hne : r.content_type ≠ "multipart/form-data" := by
      rw [h]; decide
    simp [populate_post_data, h, hne]
  · simp [populate_post_data, h1, h2]

theorem claim_C8_populate_post_data_witness :
    (populate_post_data ⟨"text/plain", [97], "utf-8", ⟨[], true⟩, []⟩) =
      ⟨"text/plain", [97], "utf-8", ⟨[], true⟩, []⟩ :=
  (claim_C8_populate_post_data ⟨"text/plain", [97], "utf-8", ⟨[], true⟩, []⟩).2.2
    (by decide) (by decide)

/-- Claim C10: for a url-encoded request, the field map installed by
`populate_post_data` is immutable: the `QueryDict` constructor leaves
Django's `mutable` argument at its default `False`, so the url-encoded
branch is as frozen as the multipart branch. -/
theorem claim_C10_urlencoded_frozen (r : HttpRequest)
    (h : r.content_type = "application/x-www-form-urlencoded") :
    (populate_post_data r).POST.mutableFlag = false := by
  have hne : r.content_type ≠ "multipart/form-data" := by
    rw [h]; decide
  simp [populate_post_data, h, hne, QueryDict.ofBody]

theorem claim_C10_urlencoded_frozen_witness :
    (populate_post_data
      ⟨"application/x-www-form-urlencoded", [97, 61, 98], "utf-8",
        ⟨[], true⟩, []⟩).POST.mutableFlag = false :=
  claim_C10_urlencoded_frozen
    ⟨"application/x-www-form-urlencoded", [97, 61, 98], "utf-8",
      ⟨[], true⟩, []⟩ rfl

/-! ## BigBlueButton signed-link codec and join flow

`zerver/views/video_calls.py` is not in the excerpt; the create/join flow
is modelled from the specification (section 4.4), with the outcomes pinned
by the shipped BigBlueButton tests.  Tokens are byte lists.  Django's
`Signer.sign_object` appends a separator byte and a keyed digest of the
serialized payload; the HMAC-SHA256 digest is modelled symbolically as a
keyed encoding that embeds the signed value (so distinct values have
distinct digests, standing in for collision resistance), and the digest
contains no separator byte, as base64 output does not. -/

/-- Little-endian decimal digit bytes of a natural number, with fuel. -/
def natDigitsAux : Nat → Nat → List Nat
  | 0, _ => []
  | fuel + 1, n =>
    if n < 10 then [48 + n] else (48 + n % 10) :: natDigitsAux fuel (n / 10)

/-- Little-endian decimal digit bytes of a natural number. -/
def natDigits (n : Nat) : List Nat := natDigitsAux (n + 1) n

/-- Value of a little-endian decimal digit byte list. -/
def digitsVal : List Nat → Nat
  | [] => 0
  | d :: ds => (d - 48) + 10 * digitsVal ds

/-- Serialize a byte list: each byte as its decimal digits followed by the
byte `95`. -/
def encodeBytes : List Nat → List Nat
  | [] => []
  | b :: bs => natDigits b ++ 95 :: encodeBytes bs

/-- Fueled inverse of `encodeBytes`. -/
def decodeBytesAux : Nat → List Nat → List Nat
  | 0, _ => []
  | fuel + 1, l =>
    if l = [] then []
    else
      let p := splitFirst 95 l
      digitsVal p.1 :: decodeBytesAux fuel p.2

/-- Inverse of `encodeBytes`. -/
def decodeBytes (l : List Nat) : List Nat := decodeBytesAux l.length l

/-- Modelled from the spec: the `SignedMeetingPayload` signed into the
BigBlueButton join link: meeting identifier, display name, the
camera-lock flag, and the creating moderator's user id. -/
structure BbbPayload where
  meeting_id : List Nat
  name : List Nat
  lock_settings_disable_cam : Bool
  moderator : Nat
  deriving DecidableEq, Repr

/-- One byte for a boolean. -/
def encodeBool (b : Bool) : List Nat := if b then [49] else [48]

/-- Serialization of a `BbbPayload` into separator-free bytes (every
emitted byte is a decimal digit, `95`, or the field comma `44`). -/
def serializePayload (p : BbbPayload) : List Nat :=
  encodeBytes p.meeting_id ++
    44 :: (encodeBytes p.name ++
      44 :: (encodeBool p.lock_settings_disable_cam ++
        44 :: natDigits p.moderator))

/-- Inverse of `serializePayload`. -/
def decodePayload (l : List Nat) : BbbPayload :=
  let s1 := splitFirst 44 l
  let s2 := splitFirst 44 s1.2
  let s3 := splitFirst 44 s2.2
  ⟨decodeBytes s1.1, decodeBytes s2.1, s3.1 == [49], digitsVal s3.2⟩

/-- Key fingerprint byte of the symbolic digest: a letter in `65..90`,
never the separator `58`. -/
def keyTag (key : List Nat) : Nat :=
  65 + (key.foldl (fun a b => a + b) 0) % 26

/-- Symbolic keyed digest standing in for Django's base64-encoded
HMAC-SHA256: the key fingerprint byte followed by the signed value.  It is
injective in the value (collision resistance of the real digest) and
contains no separator byte when the value does not. -/
def macBytes (key : List Nat) (value : List Nat) : List Nat :=
  keyTag key :: value

/-- Model of `Signer.sign_object`: serialized payload, separator byte
`58`, digest of the serialized payload. -/
def sign_object (key : List Nat) (p : BbbPayload) : List Nat :=
  serializePayload p ++ 58 :: macBytes key (serializePayload p)

/-- Split a token at the last occurrence of the separator byte `58`, as
Django does with `value.rsplit(sep, 1)`; `none` when no separator
occurs. -/
def rsplitLast : List Nat → Option (List Nat × List Nat)
  | [] => none
  | a :: rest =>
    match rsplitLast rest with
    | some p => some (a :: p.1, p.2)
    | none => if a = 58 then some ([], rest) else none

/-- Model of `Signer.unsign`: split at the last separator and compare the
trailing bytes against the recomputed digest of the leading bytes;
`none` is Django's `BadSignature`. -/
def verifySigned (key : List Nat) (token : List Nat) : Option (List Nat) :=
  match rsplitLast token with
  | none => none
  | some p => if p.2 = macBytes key p.1 then some p.1 else none

/-- Model of `Signer.unsign_object`: verify, then deserialize. -/
def unsign_object (key : List Nat) (token : List Nat) : Option BbbPayload :=
  (verifySigned key token).map decodePayload

/-- Bytes of a string literal. -/
def strBytes (s : String) : List Nat := s.toList.map Char.toNat

/-- Symbolic digest standing in for the SHA-256 checksum over a
BigBlueButton query string plus shared secret: decimal digits of a keyed
fold of the input bytes. -/
def checksumDigest (data : List Nat) : List Nat :=
  natDigits (data.foldl (fun a b => (a * 31 + b) % 1000000007) 7)

/-- The user joining a BigBlueButton meeting. -/
structure BbbUser where
  id : Nat
  full_name : List Nat
  deriving DecidableEq, Repr

/-- Modelled from the spec: the `role` join parameter, `MODERATOR` when
the joining user is the payload's moderator and `VIEWER` otherwise. -/
def bbbRole (p : BbbPayload) (user : BbbUser) : List Nat :=
  if user.id = p.moderator then strBytes "MODERATOR" else strBytes "VIEWER"

/-- The deterministically ordered query parameters of the upstream join
call. -/
def bbb_join_params (p : BbbPayload) (user : BbbUser)
    (createTime : List Nat) : List Nat :=
  strBytes "meetingID=" ++ p.meeting_id ++
    strBytes "&role=" ++ bbbRole p user ++
    strBytes "&fullName=" ++ user.full_name ++
    strBytes "&createTime=" ++ createTime

/-- The checksum recomputed over the join call's own ordered parameters
plus the shared secret. -/
def bbb_join_checksum (secret : List Nat) (p : BbbPayload) (user : BbbUser)
    (createTime : List Nat) : List Nat :=
  checksumDigest (strBytes "join" ++ bbb_join_params p user createTime ++ secret)

/-- The redirect URL of a successful join: base URL, ordered join
parameters, and the recomputed checksum. -/
def bbb_join_url (base secret : List Nat) (p : BbbPayload) (user : BbbUser)
    (createTime : List Nat) : List Nat :=
  base ++ strBytes "join?" ++ bbb_join_params p user createTime ++
    strBytes "&checksum=" ++ bbb_join_checksum secret p user createTime

/-- The upstream create-call XML document, already parsed (XML parsing is
an external collaborator): `returncode`, `messageKey` and `createTime`
element texts as bytes. -/
structure BbbXmlDoc where
  returncode : List Nat
  messageKey : List Nat
  createTime : List Nat
  deriving DecidableEq, Repr

/-- The upstream answer to the BigBlueButton create call. -/
inductive BbbUpstream where
  | connectionFailure
  | response (status : Nat) (doc : BbbXmlDoc)
  deriving DecidableEq, Repr

/-- The BigBlueButton settings: base API URL and shared secret, each
absent when unconfigured. -/
structure BbbConfig where
  url : Option (List Nat)
  secret : Option (List Nat)
  deriving DecidableEq, Repr

/-- Outcome of a join request: an HTTP 302 redirect to the given URL, or
a classified error. -/
inductive BbbJoinOutcome where
  | redirect (url : List Nat)
  | failure (e : ProviderError)
  deriving DecidableEq, Repr

/-- Modelled from the spec: `join(signedToken, requestingUserId)`.
Verifies the signature first, aborting with the invalid-signature error
and zero outbound calls on failure; checks configuration before any
network attempt; then issues the single upstream create call and
classifies its response: connection failure or non-2xx yields the
connecting error, `returncode=SUCCESS` yields the redirect with the
recomputed join checksum, `messageKey=checksumError` yields the
authenticating error, and any other failure key the unexpected error.
The second component counts outbound HTTP calls. -/
def bbb_join (cfg : BbbConfig) (key : List Nat) (token : List Nat)
    (user : BbbUser) (upstream : BbbUpstream) : BbbJoinOutcome × Nat :=
  match unsign_object key token with
  | none => (.failure .SignatureInvalid, 0)
  | some p =>
    match cfg.url, cfg.secret with
    | some base, some secret =>
      match upstream with
      | .connectionFailure => (.failure .UpstreamUnavailable, 1)
      | .response status doc =>
        if is2xx status = false then (.failure .UpstreamUnavailable, 1)
        else if doc.returncode = strBytes "SUCCESS" then
          (.redirect (bbb_join_url base secret p user doc.createTime), 1)
        else if doc.messageKey = strBytes "checksumError" then
          (.failure .InvalidCredentials, 1)
        else (.failure .UpstreamRejected, 1)
    | _, _ => (.failure .NotConfigured, 0)

/-- The fixed human-readable BigBlueButton error messages asserted by the
tests. -/
def bbb_error_message : ProviderError → String
  | .NotConfigured => "BigBlueButton is not configured."
  | .SignatureInvalid => "Invalid signature."
  | .UpstreamUnavailable => "Error connecting to the BigBlueButton server."
  | .InvalidCredentials => "Error authenticating to the BigBlueButton server."
  | .UpstreamRejected => "BigBlueButton server returned an unexpected error."
  | _ => ""

theorem natDigitsAux_mem (fuel : Nat) :
    ∀ n x, x ∈ natDigitsAux fuel n → 48 ≤ x ∧ x < 58 := by
  induction fuel with
  | zero => intro n x hx; simp [natDigitsAux] at hx
  | succ f ih =>
    intro n x hx
    by_cases h : n < 10
    · simp [natDigitsAux, h] at hx
      omega
    · simp [natDigitsAux, h] at hx
      rcases hx with hx | hx
      · have : n % 10 < 10 := Nat.mod_lt _ (by omega)
        omega
      · exact ih _ _ hx

theorem natDigits_mem {n x : Nat} (hx : x ∈ natDigits n) : 48 ≤ x ∧ x < 58 :=
  natDigitsAux_mem (n + 1) n x hx

theorem digitsVal_natDigitsAux (fuel : Nat) :
    ∀ n, n < fuel → digitsVal (natDigitsAux fuel n) = n := by
  induction fuel with
  | zero => intro n h; omega
  | succ f ih =>
    intro n h
    by_cases h10 : n < 10
    · simp [natDigitsAux, h10, digitsVal]
      try omega
    · have hdiv : n / 10 < f := by
        have h1 : n / 10 < n := Nat.div_lt_self (by omega) (by omega)
        omega
      simp [natDigitsAux, h10, digitsVal, ih _ hdiv]
      omega

theorem digitsVal_natDigits (n : Nat) : digitsVal (natDigits n) = n :=
  digitsVal_natDigitsAux (n + 1) n (Nat.lt_succ_self n)

theorem splitFirst_append (sep : Nat) (c r : List Nat)
    (h : ∀ x ∈ c, x ≠ sep) : splitFirst sep (c ++ sep :: r) = (c, r) := by
  induction c with
  | nil => simp [splitFirst]
  | cons a c ih =>
    have ha : a ≠ sep := h a (by simp)
    simp [splitFirst, ha, ih (fun x hx => h x (by simp [hx]))]

theorem encodeBytes_mem :
    ∀ (bs : List Nat) (x : Nat), x ∈ encodeBytes bs →
      (48 ≤ x ∧ x < 58) ∨ x = 95 := by
  intro bs
  induction bs with
  | nil => intro x hx; simp [encodeBytes] at hx
  | cons b bs ih =>
    intro x hx
    simp [encodeBytes] at hx
    rcases hx with hx | hx | hx
    · exact Or.inl (natDigits_mem hx)
    · exact Or.inr hx
    · exact ih x hx

theorem decodeBytesAux_nil (fuel : Nat) : decodeBytesAux fuel [] = [] := by
  cases fuel <;> simp [decodeBytesAux]

theorem decodeBytesAux_encode : ∀ (bs : List Nat) (fuel : Nat),
    (encodeBytes bs).length ≤ fuel →
    decodeBytesAux fuel (encodeBytes bs) = bs := by
  intro bs
  induction bs with
  | nil => intro fuel _; simp [encodeBytes, decodeBytesAux_nil]
  | cons b bs ih =>
    intro fuel hf
    rw [encodeBytes] at hf ⊢
    have hne : natDigits b ++ 95 :: encodeBytes bs ≠ [] := by simp
    have hsplit : splitFirst 95 (natDigits b ++ 95 :: encodeBytes bs) =
        (natDigits b, encodeBytes bs) :=
      splitFirst_append 95 _ _
        (fun x hx => by have := natDigits_mem hx; omega)
    cases fuel with
    | zero =>
      exfalso
      simp [List.length_append] at hf
    | succ f =>
      simp only [decodeBytesAux, if_neg hne, hsplit]
      rw [digitsVal_natDigits]
      simp only [List.cons.injEq, true_and]
      apply ih
      simp [List.length_append] at hf
      omega

theorem decodeBytes_encodeBytes (bs : List Nat) :
    decodeBytes (encodeBytes bs) = bs :=
  decodeBytesAux_encode bs _ le_rfl

theorem encodeBytes_ne44 (bs : List Nat) : ∀ x ∈ encodeBytes bs, x ≠ 44 := by
  intro x hx
  rcases encodeBytes_mem bs x hx with h | h <;> omega

theorem encodeBool_ne44 (b : Bool) : ∀ x ∈ encodeBool b, x ≠ 44 := by
  cases b <;> simp [encodeBool]

theorem encodeBool_beq (b : Bool) : (encodeBool b == [49]) = b := by
  cases b <;> rfl

theorem decodePayload_serializePayload (p : BbbPayload) :
    decodePayload (serializePayload p) = p := by
  obtain ⟨m, nm, b, mo⟩ := p
  simp only [decodePayload, serializePayload,
    splitFirst_append 44 _ _ (encodeBytes_ne44 m),
    splitFirst_append 44 _ _ (encodeBytes_ne44 nm),
    splitFirst_append 44 _ _ (encodeBool_ne44 b),
    decodeBytes_encodeBytes, encodeBool_beq, digitsVal_natDigits]

theorem serializePayload_ne_sep (p : BbbPayload) :
    ∀ x ∈ serializePayload p, x ≠ 58 := by
  intro x hx
  simp [serializePayload] at hx
  rcases hx with hx | hx | hx | hx | hx | hx | hx
  · rcases encodeBytes_mem _ x hx with h | h <;> omega
  · omega
  · rcases encodeBytes_mem _ x hx with h | h <;> omega
  · omega
  · cases hb : p.lock_settings_disable_cam <;>
      simp [encodeBool, hb] at hx <;> omega
  · omega
  · have := natDigits_mem hx; omega

theorem keyTag_ne_sep (key : List Nat) : keyTag key ≠ 58 := by
  unfold keyTag
  omega

theorem macBytes_ne_sep (key v : List Nat) (hv : ∀ x ∈ v, x ≠ 58) :
    ∀ x ∈ macBytes key v, x ≠ 58 := by
  intro x hx
  rcases List.mem_cons.mp hx with rfl | hx
  · exact keyTag_ne_sep key
  · exact hv x hx

theorem rsplitLast_of_forall_ne (l : List Nat) (h : ∀ x ∈ l, x ≠ 58) :
    rsplitLast l = none := by
  induction l with
  | nil => rfl
  | cons a rest ih =>
    have ha : a ≠ 58 := h a (by simp)
    simp [rsplitLast, ih (fun x hx => h x (by simp [hx])), ha]

theorem rsplitLast_append (v r : List Nat) (h : ∀ x ∈ r, x ≠ 58) :
    rsplitLast (v ++ 58 :: r) = some (v, r) := by
  induction v with
  | nil => simp [rsplitLast, rsplitLast_of_forall_ne r h]
  | cons a v ih => simp [rsplitLast, ih]

theorem verifySigned_sign (key : List Nat) (p : BbbPayload) :
    verifySigned key (sign_object key p) = some (serializePayload p) := by
  unfold verifySigned sign_object
  rw [rsplitLast_append _ _
    (macBytes_ne_sep key _ (serializePayload_ne_sep p))]
  simp

theorem unsign_object_sign_object (key : List Nat) (p : BbbPayload) :
    unsign_object key (sign_object key p) = some p := by
  unfold unsign_object
  rw [verifySigned_sign]
  simp [decodePayload_serializePayload]

theorem verifySigned_append_byte (key : List Nat) (p : BbbPayload) (b : Nat) :
    verifySigned key (sign_object key p ++ [b]) = none := by
  by_cases hb : b = 58
  · subst hb
    have hshape : sign_object key p ++ [58] =
        (serializePayload p ++ 58 :: macBytes key (serializePayload p)) ++
          58 :: ([] : List Nat) := by
      simp [sign_object]
    have hnil : ∀ x ∈ ([] : List Nat), x ≠ 58 := by intro x hx; simp at hx
    rw [hshape]
    unfold verifySigned
    rw [rsplitLast_append _ _ hnil]
    simp [macBytes]
  · have hfree : ∀ x ∈ macBytes key (serializePayload p) ++ [b], x ≠ 58 := by
      intro x hx
      rcases List.mem_append.mp hx with hx | hx
      · exact macBytes_ne_sep key _ (serializePayload_ne_sep p) x hx
      · simp at hx; subst hx; exact hb
    have hshape : sign_object key p ++ [b] =
        serializePayload p ++
          58 :: (macBytes key (serializePayload p) ++ [b]) := by
      simp [sign_object]
    rw [hshape]
    unfold verifySigned
    rw [rsplitLast_append _ _ hfree]
    have hne : macBytes key (serializePayload p) ++ [b] ≠
        macBytes key (serializePayload p) := by
      intro h
      have := congrArg List.length h
      simp at this
    simp [hne]

theorem verifySigned_set_byte (key : List Nat) (p : BbbPayload) (i c : Nat)
    (hi : i < (sign_object key p).length)
    (hc : c ≠ (sign_object key p).getD i 0) :
    verifySigned key ((sign_object key p).set i c) = none := by
  simp only [sign_object] at hi hc ⊢
  set s := serializePayload p with hs
  have hsf : ∀ x ∈ s, x ≠ 58 := serializePayload_ne_sep p
  have hmacf : ∀ x ∈ macBytes key s, x ≠ 58 := macBytes_ne_sep key s hsf
  have hmaclen : (macBytes key s).length = s.length + 1 := by
    simp [macBytes]
  have hilen : i < s.length + 1 + (s.length + 1) := by
    simp [List.length_append, hmaclen] at hi
    omega
  rcases Nat.lt_trichotomy i s.length with hlt | heq | hgt
  · have hset : (s ++ 58 :: macBytes key s).set i c =
        s.set i c ++ 58 :: macBytes key s := by
      rw [List.set_append, if_pos hlt]
    have hgetD : (s ++ 58 :: macBytes key s).getD i 0 = s.getD i 0 :=
      List.getD_append _ _ _ _ hlt
    have hc' : c ≠ s.getD i 0 := by rw [← hgetD]; exact hc
    have hsetne : s.set i c ≠ s := by
      intro h
      have h2 := congrArg (fun l => l.getD i 0) h
      simp only at h2
      rw [List.getD_eq_getElem _ _ (by rw [List.length_set]; exact hlt),
        List.getElem_set_self] at h2
      exact hc' h2
    unfold verifySigned
    rw [hset, rsplitLast_append _ _ hmacf]
    have hcond : macBytes key s ≠ macBytes key (s.set i c) := by
      intro h
      simp only [macBytes, List.cons.injEq, true_and] at h
      exact hsetne h.symm
    simp [hcond]
  · subst heq
    have hgetD : (s ++ 58 :: macBytes key s).getD s.length 0 = 58 := by
      rw [List.getD_append_right _ _ _ _ (le_refl _)]
      simp
    have hc58 : c ≠ 58 := by rw [← hgetD]; exact hc
    have hset : (s ++ 58 :: macBytes key s).set s.length c =
        s ++ c :: macBytes key s := by
      rw [List.set_append, if_neg (lt_irrefl _)]
      simp
    have hall : ∀ x ∈ s ++ c :: macBytes key s, x ≠ 58 := by
      intro x hx
      rcases List.mem_append.mp hx with hx | hx
      · exact hsf x hx
      · rcases List.mem_cons.mp hx with rfl | hx
        · exact hc58
        · exact hmacf x hx
    unfold verifySigned
    rw [hset, rsplitLast_of_forall_ne _ hall]
  · have hjlt : i - s.length - 1 < (macBytes key s).length := by
      rw [hmaclen]; omega
    have hisub : i - s.length = (i - s.length - 1) + 1 := by omega
    have hset : (s ++ 58 :: macBytes key s).set i c =
        s ++ 58 :: (macBytes key s).set (i - s.length - 1) c := by
      rw [List.set_append, if_neg (by omega), hisub]
      rfl
    have hgetD : (s ++ 58 :: macBytes key s).getD i 0 =
        (macBytes key s).getD (i - s.length - 1) 0 := by
      rw [List.getD_append_right _ _ _ _ (by omega), hisub]
      exact List.getD_cons_succ
    have hc' : c ≠ (macBytes key s).getD (i - s.length - 1) 0 := by
      rw [← hgetD]; exact hc
    by_cases hc58 : c = 58
    · subst hc58
      have htake : (macBytes key s).set (i - s.length - 1) 58 =
          (macBytes key s).take (i - s.length - 1) ++
            58 :: (macBytes key s).drop (i - s.length - 1 + 1) :=
        List.set_eq_take_cons_drop 58 hjlt
      have hshape : s ++ 58 :: ((macBytes key s).take (i - s.length - 1) ++
            58 :: (macBytes key s).drop (i - s.length - 1 + 1)) =
          (s ++ 58 :: (macBytes key s).take (i - s.length - 1)) ++
            58 :: (macBytes key s).drop (i - s.length - 1 + 1) := by
        simp
      have hdropf : ∀ x ∈ (macBytes key s).drop (i - s.length - 1 + 1), x ≠ 58 :=
        fun x hx => hmacf x (List.mem_of_mem_drop hx)
      unfold verifySigned
      rw [hset, htake, hshape, rsplitLast_append _ _ hdropf]
      have hcond : (macBytes key s).drop (i - s.length - 1 + 1) ≠
          macBytes key (s ++ 58 :: (macBytes key s).take (i - s.length - 1)) := by
        intro h
        have hl := congrArg List.length h
        simp only [macBytes, List.length_drop, List.length_cons,
          List.length_append, List.length_take] at hl
        omega
      simp [hcond]
    · have hsetf : ∀ x ∈ (macBytes key s).set (i - s.length - 1) c, x ≠ 58 := by
        intro x hx
        rcases List.mem_or_eq_of_mem_set hx with hx | rfl
        · exact hmacf x hx
        · exact hc58
      have hsetne : (macBytes key s).set (i - s.length - 1) c ≠
          macBytes key s := by
        intro h
        have h2 := congrArg (fun l => l.getD (i - s.length - 1) 0) h
        simp only at h2
        rw [List.getD_eq_getElem _ _ (by rw [List.length_set]; exact hjlt),
          List.getElem_set_self] at h2
        exact hc' h2
      unfold verifySigned
      rw [hset, rsplitLast_append _ _ hsetf]
      simp [hsetne]

/-- Claim C3: every BigBlueButton join request whose signed token is a
validly signed token with any byte appended or any byte altered fails
signature verification: the result is the invalid-signature error (message
"Invalid signature.") and zero outbound HTTP calls are issued, whatever
the configuration and whatever the upstream would have answered. -/
theorem claim_C3_bbb_tampered_token (cfg : BbbConfig) (key : List Nat)
    (p : BbbPayload) (user : BbbUser) (upstream : BbbUpstream) :
    (∀ b : Nat,
      bbb_join cfg key (sign_object key p ++ [b]) user upstream =
        (.failure .SignatureInvalid, 0)) ∧
    (∀ i c : Nat, i < (sign_object key p).length →
      c ≠ (sign_object key p).getD i 0 →
      bbb_join cfg key ((sign_object key p).set i c) user upstream =
        (.failure .SignatureInvalid, 0)) ∧
    bbb_error_message .SignatureInvalid = "Invalid signature." := by
  refine ⟨fun b => ?_, fun i c hi hc => ?_, rfl⟩
  · unfold bbb_join unsign_object
    rw [verifySigned_append_byte]
    rfl
  · unfold bbb_join unsign_object
    rw [verifySigned_set_byte key p i c hi hc]
    rfl

theorem claim_C3_bbb_tampered_token_witness :
    bbb_join ⟨some [], some []⟩ [107]
        (sign_object [107] ⟨[97], [97], true, 1⟩ ++ [122]) ⟨1, []⟩
        .connectionFailure = (.failure .SignatureInvalid, 0) ∧
    bbb_join ⟨some [], some []⟩ [107]
        ((sign_object [107] ⟨[97], [97], true, 1⟩).set 0 96) ⟨1, []⟩
        .connectionFailure = (.failure .SignatureInvalid, 0) :=
  ⟨(claim_C3_bbb_tampered_token ⟨some [], some []⟩ [107] ⟨[97], [97], true, 1⟩
      ⟨1, []⟩ .connectionFailure).1 122,
    (claim_C3_bbb_tampered_token ⟨some [], some []⟩ [107] ⟨[97], [97], true, 1⟩
      ⟨1, []⟩ .connectionFailure).2.1 0 96 (by decide) (by decide)⟩

/-- Claim C4: for every BigBlueButton join request with a validly signed
token on a configured server, the outcome is determined by the upstream
create-call response exactly as follows: a connection failure or non-2xx
status yields the connecting-error message; returncode SUCCESS yields a
302 redirect whose URL carries the checksum recomputed over the join
parameters plus the shared secret; a non-SUCCESS returncode with
messageKey checksumError yields the authenticating-error message; any
other failure key yields the unexpected-error message.  Exactly one
outbound call is issued in each of these cases. -/
theorem claim_C4_bbb_join_outcomes (key base secret : List Nat)
    (p : BbbPayload) (user : BbbUser) (status : Nat) (doc : BbbXmlDoc) :
    (bbb_join ⟨some base, some secret⟩ key (sign_object key p) user
        .connectionFailure = (.failure .UpstreamUnavailable, 1)) ∧
    (is2xx status = false →
      bbb_join ⟨some base, some secret⟩ key (sign_object key p) user
        (.response status doc) = (.failure .UpstreamUnavailable, 1)) ∧
    (is2xx status = true → doc.returncode = strBytes "SUCCESS" →
      bbb_join ⟨some base, some secret⟩ key (sign_object key p) user
        (.response status doc) =
        (.redirect (bbb_join_url base secret p user doc.createTime), 1) ∧
      bbb_join_url base secret p user doc.createTime =
        base ++ strBytes "join?" ++ bbb_join_params p user doc.createTime ++
          strBytes "&checksum=" ++
          checksumDigest (strBytes "join" ++
            bbb_join_params p user doc.createTime ++ secret)) ∧
    (is2xx status = true → doc.returncode ≠ strBytes "SUCCESS" →
      doc.messageKey = strBytes "checksumError" →
      bbb_join ⟨some base, some secret⟩ key (sign_object key p) user
        (.response status doc) = (.failure .InvalidCredentials, 1)) ∧
    (is2xx status = true → doc.returncode ≠ strBytes "SUCCESS" →
      doc.messageKey ≠ strBytes "checksumError" →
      bbb_join ⟨some base, some secret⟩ key (sign_object key p) user
        (.response status doc) = (.failure .UpstreamRejected, 1)) ∧
    bbb_error_message .UpstreamUnavailable =
      "Error connecting to the BigBlueButton server." ∧
    bbb_error_message .InvalidCredentials =
      "Error authenticating to the BigBlueButton server." ∧
    bbb_error_message .UpstreamRejected =
      "BigBlueButton server returned an unexpected error." := by
  have hu : unsign_object key (sign_object key p) = some p :=
    unsign_object_sign_object key p
  refine ⟨?_, fun h1 => ?_, fun h1 h2 => ⟨?_, ?_⟩, fun h1 h2 h3 => ?_,
    fun h1 h2 h3 => ?_, rfl, rfl, rfl⟩
  · simp [bbb_join, hu]
  · simp [bbb_join, hu, h1]
  · simp [bbb_join, hu, h1, h2]
  · rfl
  · simp [bbb_join, hu, h1, h2, h3]
  · simp [bbb_join, hu, h1, h2, h3]

theorem claim_C4_bbb_join_outcomes_witness :
    bbb_join ⟨some [], some []⟩ [] (sign_object [] ⟨[], [], false, 0⟩) ⟨0, []⟩
        (.response 200 ⟨strBytes "SUCCESS", [], [48]⟩) =
      (.redirect (bbb_join_url [] [] ⟨[], [], false, 0⟩ ⟨0, []⟩ [48]), 1) :=
  (((claim_C4_bbb_join_outcomes [] [] [] ⟨[], [], false, 0⟩ ⟨0, []⟩ 200
      ⟨strBytes "SUCCESS", [], [48]⟩).2.2.1) (by decide) rfl).1

/-! ## Nextcloud Talk provider client

`zerver/views/video_calls.py` is not in the excerpt; the create-meeting
call is modelled from the specification (section 4.5), with the outcomes
pinned by the shipped Nextcloud tests. -/

/-- The upstream answer to the Nextcloud Talk room-creation call: a
transport-level failure, or a JSON body whose `ocs.data.token` field may
be missing. -/
inductive NextcloudUpstream where
  | transportError
  | body (token : Option String)
  deriving DecidableEq, Repr

/-- The Nextcloud Talk settings: the server URL, absent when
unconfigured. -/
structure NextcloudConfig where
  server : Option String
  deriving DecidableEq, Repr

/-- The fixed human-readable Nextcloud Talk error messages asserted by
the tests. -/
def nextcloud_error_message : ProviderError → String
  | .NotConfigured => "Nextcloud Talk is not configured."
  | .UpstreamUnavailable => "Error connecting to the Nextcloud Talk server."
  | .MalformedUpstreamResponse => "Failed to create Nextcloud Talk conversation"
  | _ => ""

/-- Modelled from the spec: `create_meeting(meetingName)` for Nextcloud
Talk.  An unset server URL signals not-configured immediately with no
outbound call; otherwise the room-creation call is issued: a transport
failure signals the connecting error, a body missing the token field
signals the malformed-response error, and a token yields the call URL
built from the server and the token.  The second component counts
outbound HTTP calls. -/
def nextcloud_create_meeting (cfg : NextcloudConfig) (meetingName : String)
    (upstream : NextcloudUpstream) : Except ProviderError String × Nat :=
  match cfg.server with
  | none => (.error .NotConfigured, 0)
  | some server =>
    match upstream with
    | .transportError => (.error .UpstreamUnavailable, 1)
    | .body none => (.error .MalformedUpstreamResponse, 1)
    | .body (some token) =>
      (.ok (server ++ "/index.php/call/" ++ token), 1)

/-- Claim C9: for every Nextcloud Talk create-meeting call: an unset
server URL signals the not-configured error immediately with zero
outbound calls; a thrown transport exception yields the connecting error;
a success response missing the token field yields the malformed-response
error; a success response with a token yields the URL
`{server}/index.php/call/{token}`. -/
theorem claim_C9_nextcloud_outcomes (cfg : NextcloudConfig)
    (meetingName : String) (upstream : NextcloudUpstream) :
    (cfg.server = none →
      nextcloud_create_meeting cfg meetingName upstream =
        (.error .NotConfigured, 0) ∧
      nextcloud_error_message .NotConfigured =
        "Nextcloud Talk is not configured.") ∧
    (∀ server, cfg.server = some server →
      (upstream = .transportError →
        nextcloud_create_meeting cfg meetingName upstream =
          (.error .UpstreamUnavailable, 1) ∧
        nextcloud_error_message .UpstreamUnavailable =
          "Error connecting to the Nextcloud Talk server.") ∧
      (upstream = .body none →
        nextcloud_create_meeting cfg meetingName upstream =
          (.error .MalformedUpstreamResponse, 1) ∧
        nextcloud_error_message .MalformedUpstreamResponse =
          "Failed to create Nextcloud Talk conversation") ∧
      (∀ token, upstream = .body (some token) →
        nextcloud_create_meeting cfg meetingName upstream =
          (.ok (server ++ "/index.php/call/" ++ token), 1))) := by
  constructor
  · intro h
    refine ⟨?_, rfl⟩
    simp [nextcloud_create_meeting, h]
  · intro server hs
    refine ⟨fun h => ⟨?_, rfl⟩, fun h => ⟨?_, rfl⟩, fun token h => ?_⟩ <;>
      subst h <;> simp [nextcloud_create_meeting, hs]

theorem claim_C9_nextcloud_outcomes_witness :
    nextcloud_create_meeting ⟨some "https://cloud.example.com"⟩ "Test"
        (.body (some "abc123token")) =
      (.ok "https://cloud.example.com/index.php/call/abc123token", 1) :=
  ((claim_C9_nextcloud_outcomes ⟨some "https://cloud.example.com"⟩ "Test"
      (.body (some "abc123token"))).2 "https://cloud.example.com" rfl).2.2
    "abc123token" rfl
